import Mathlib

/-!
Verification of the intent-builder core of the `aiusd-skills` repository
(`intent-builder.ts`): chain resolution (`resolveChainId`), token resolution
(`resolveToken`) and the deterministic XML assembler (`buildIntentXml`).

The TypeScript source is shallowly embedded below.  Strings are Lean
`String`s; JavaScript's `toUpperCase` / `toLowerCase` are modelled by their
ASCII case maps (every key in the static tables and every literal compared
against is ASCII); `trim` uses the ECMAScript white-space set; the
`isNaN(Number(s))` test is modelled by a recognizer for the ECMAScript
`StringNumericLiteral` grammar; thrown `Error`s become `Except String`.
`Record` lookups are association-list lookups on the literal tables.
-/

set_option maxRecDepth 100000

namespace AiusdSkills

-- ---------------------------------------------------------------------------
-- JavaScript string primitives (ASCII case map, ECMAScript white space)
-- ---------------------------------------------------------------------------

/-- ECMAScript `WhiteSpace` / `LineTerminator` characters (the set trimmed by
`String.prototype.trim` and by `StringToNumber`). -/
def isJsWhitespace (c : Char) : Bool :=
  c = ' ' || c = '\t' || c = '\n' || c = '\r' ||
  c = Char.ofNat 11 || c = Char.ofNat 12 ||
  c = Char.ofNat 0xa0 || c = Char.ofNat 0x1680 ||
  (Char.ofNat 0x2000 ≤ c && c ≤ Char.ofNat 0x200a) ||
  c = Char.ofNat 0x2028 || c = Char.ofNat 0x2029 ||
  c = Char.ofNat 0x202f || c = Char.ofNat 0x205f ||
  c = Char.ofNat 0x3000 || c = Char.ofNat 0xfeff

/-- Trim ECMAScript white space from both ends of a character list. -/
def trimJsChars (cs : List Char) : List Char :=
  ((cs.dropWhile isJsWhitespace).reverse.dropWhile isJsWhitespace).reverse

/-- JavaScript `s.trim()` (ASCII / ECMAScript white-space set). -/
def jsTrim (s : String) : String :=
  ⟨trimJsChars s.data⟩

/-- JavaScript `s.toLowerCase()` restricted to the ASCII case map. -/
def jsToLower (s : String) : String :=
  ⟨s.data.map Char.toLower⟩

/-- JavaScript `s.toUpperCase()` restricted to the ASCII case map. -/
def jsToUpper (s : String) : String :=
  ⟨s.data.map Char.toUpper⟩

/-- JavaScript `s.includes(c)` for a single character. -/
def jsIncludesChar (s : String) (c : Char) : Bool :=
  s.data.contains c

/-- Character-list prefix test, used for JavaScript `s.startsWith(p)`. -/
def startsWithChars : List Char → List Char → Bool
  | _, [] => true
  | [], _ :: _ => false
  | c :: cs, p :: ps => c = p && startsWithChars cs ps

/-- JavaScript `s.startsWith(p)`. -/
def jsStartsWith (s p : String) : Bool :=
  startsWithChars s.data p.data

/-- JavaScript `Array.prototype.join(', ')` over a list of strings. -/
def joinComma : List String → String
  | [] => ""
  | [s] => s
  | s :: rest => s ++ ", " ++ joinComma rest

-- ---------------------------------------------------------------------------
-- ECMAScript StringToNumber: NaN-ness recognizer
-- ---------------------------------------------------------------------------

/-- ECMAScript hex digit. -/
def isHexDigitChar (c : Char) : Bool :=
  c.isDigit || ('a' ≤ c && c ≤ 'f') || ('A' ≤ c && c ≤ 'F')

/-- One or more decimal digits. -/
def isDecDigits1 (cs : List Char) : Bool :=
  !cs.isEmpty && cs.all (·.isDigit)

/-- Split a character list at the first character satisfying `p`; the second
component is `none` when no such character occurs. -/
def splitAtFirst (p : Char → Bool) : List Char → List Char × Option (List Char)
  | [] => ([], none)
  | c :: rest =>
    if p c then ([], some rest)
    else
      let r := splitAtFirst p rest
      (c :: r.1, r.2)

/-- ECMAScript `StrUnsignedDecimalLiteral`: `Infinity`, or a decimal mantissa
(`D+`, `D+.D*` or `.D+`) with an optional exponent part. -/
def strUnsignedDecimalLiteral (cs : List Char) : Bool :=
  if cs = "Infinity".data then true
  else
    let me := splitAtFirst (fun c => c = 'e' || c = 'E') cs
    let ifp := splitAtFirst (fun c => c = '.') me.1
    let mantOk :=
      match ifp.2 with
      | none => isDecDigits1 ifp.1
      | some frac =>
        ifp.1.all (·.isDigit) && frac.all (·.isDigit) &&
          (!ifp.1.isEmpty || !frac.isEmpty)
    let expOk :=
      match me.2 with
      | none => true
      | some [] => false
      | some (c :: rest) =>
        if c = '+' || c = '-' then isDecDigits1 rest else isDecDigits1 (c :: rest)
    mantOk && expOk

/-- ECMAScript `StrDecimalLiteral`: an optional sign then an unsigned decimal
literal. -/
def strDecimalLiteral (cs : List Char) : Bool :=
  match cs with
  | c :: rest =>
    if c = '+' || c = '-' then strUnsignedDecimalLiteral rest
    else strUnsignedDecimalLiteral (c :: rest)
  | [] => strUnsignedDecimalLiteral []

/-- ECMAScript `StrNumericLiteral` recognizer on an already-trimmed character
list; the empty list coerces to `0` (not NaN).  Unsigned `0x` / `0o` / `0b`
integer literals are the non-decimal cases; everything else must match the
signed decimal grammar. -/
def strNumericLiteralNotNaN (cs : List Char) : Bool :=
  match cs with
  | [] => true
  | '0' :: x :: rest =>
    if x = 'x' || x = 'X' then !rest.isEmpty && rest.all isHexDigitChar
    else if x = 'o' || x = 'O' then !rest.isEmpty && rest.all (fun c => '0' ≤ c && c ≤ '7')
    else if x = 'b' || x = 'B' then !rest.isEmpty && rest.all (fun c => c = '0' || c = '1')
    else strDecimalLiteral ('0' :: x :: rest)
  | _ => strDecimalLiteral cs

/-- JavaScript `isNaN(Number(s))`: true iff `s`, after trimming ECMAScript
white space, fails the `StrNumericLiteral` grammar. -/
def jsNumberIsNaN (s : String) : Bool :=
  !strNumericLiteralNotNaN (trimJsChars s.data)

-- ---------------------------------------------------------------------------
-- Types (intent-builder.ts)
-- ---------------------------------------------------------------------------

/-- `TradeParams` from `intent-builder.ts`.  `action` is a `String` because the
builder validates it at runtime (the CLI can hand it an arbitrary string).
`takeProfit` / `stopLoss` are carried as their rendered JavaScript numeral
strings, since the builder only ever interpolates them into output text and no
claim depends on JavaScript number formatting. -/
structure TradeParams where
  action : String
  base : String
  quote : Option String := none
  amount : String
  chain : String
  takeProfit : Option String := none
  stopLoss : Option String := none
deriving Repr, DecidableEq

/-- `BuildResult` from `intent-builder.ts`. -/
structure BuildResult where
  xml : String
  summary : String
deriving Repr, DecidableEq

-- ---------------------------------------------------------------------------
-- Static tables
-- ---------------------------------------------------------------------------

/-- `CHAIN_MAP`: chain name → CAIP-2 identifier (insertion order preserved,
as `Object.keys` does for the error message). -/
def CHAIN_MAP : List (String × String) :=
  [("solana", "solana:mainnet-beta"),
   ("ethereum", "eip155:1"),
   ("eth", "eip155:1"),
   ("base", "eip155:8453"),
   ("arbitrum", "eip155:42161"),
   ("arb", "eip155:42161"),
   ("bsc", "eip155:56"),
   ("polygon", "eip155:137"),
   ("matic", "eip155:137")]

/-- `KNOWN_TOKENS`: per-chain uppercased symbol → canonical address. -/
def KNOWN_TOKENS : List (String × List (String × String)) :=
  [("solana:mainnet-beta",
    [("SOL", "So11111111111111111111111111111111111111112"),
     ("USDC", "EPjFWdd5AufqSSqeM2qN1xzybapC8G4wEGGkZwyTDt1v"),
     ("USDT", "Es9vMFrzaCERmJfrF4H2FYD4KCoNkY11McCe8BenwNYB")]),
   ("eip155:1",
    [("ETH", "0xeeeeeeeeeeeeeeeeeeeeeeeeeeeeeeeeeeeeeeee"),
     ("WETH", "0xC02aaA39b223FE8D0A0e5C4F27eAD9083C756Cc2"),
     ("USDC", "0xA0b86991c6218b36c1d19D4a2e9Eb0cE3606eB48"),
     ("USDT", "0xdAC17F958D2ee523a2206206994597C13D831ec7")]),
   ("eip155:8453",
    [("ETH", "0xeeeeeeeeeeeeeeeeeeeeeeeeeeeeeeeeeeeeeeee"),
     ("USDC", "0x833589fCD6eDb6E08f4c7C32D4f71b54bdA02913")]),
   ("eip155:42161",
    [("ETH", "0xeeeeeeeeeeeeeeeeeeeeeeeeeeeeeeeeeeeeeeee"),
     ("USDC", "0xaf88d065e77c8cC2239327C5EDb3A432268e5831"),
     ("USDT", "0xFd086bC7CD5C481DCC9C85ebE478A1C0b69FCbb9")]),
   ("eip155:56",
    [("BNB", "0xeeeeeeeeeeeeeeeeeeeeeeeeeeeeeeeeeeeeeeee"),
     ("USDC", "0x8AC76a51cc950d9822D68b83fE1Ad97B32Cd580d"),
     ("USDT", "0x55d398326f99059fF775485246999027B3197955")]),
   ("eip155:137",
    [("MATIC", "0xeeeeeeeeeeeeeeeeeeeeeeeeeeeeeeeeeeeeeeee"),
     ("USDC", "0x3c499c542cEF5E3811e1192ce70d8cC03d5c3359"),
     ("USDT", "0xc2132D05D31c914a87C6611C10748AEb04B58e8F")])]

/-- `STABLECOINS` set. -/
def STABLECOINS : List String := ["USDC", "USDT", "USD1", "DAI", "BUSD"]

-- ---------------------------------------------------------------------------
-- Helpers (intent-builder.ts)
-- ---------------------------------------------------------------------------

/-- Message of the `Unknown chain` error thrown by `resolveChainId`. -/
def unknownChainMsg (chain : String) : String :=
  "Unknown chain \"" ++ chain ++ "\". Valid chains: " ++
    joinComma (CHAIN_MAP.map Prod.fst)

/-- `resolveChainId`: normalize (lower-case, trim), look up in `CHAIN_MAP`;
on a miss pass a colon-containing normalized input through, otherwise throw. -/
def resolveChainId (chain : String) : Except String String :=
  let normalized := jsTrim (jsToLower chain)
  match CHAIN_MAP.lookup normalized with
  | some chainId => .ok chainId
  | none =>
    if jsIncludesChar normalized ':' then .ok normalized
    else .error (unknownChainMsg chain)

/-- `resolveToken`: uppercase + trim the input, hit the per-chain table if
possible; otherwise pass the input through (both the raw-address branch and
the unknown-symbol branch of the source return the input unchanged). -/
def resolveToken (symbolOrAddress : String) (chainId : String) : String :=
  let upper := jsTrim (jsToUpper symbolOrAddress)
  match KNOWN_TOKENS.lookup chainId with
  | some chainTokens =>
    match chainTokens.lookup upper with
    | some addr => addr
    | none =>
      if jsStartsWith symbolOrAddress "0x" || symbolOrAddress.length ≥ 32 then
        symbolOrAddress
      else
        symbolOrAddress
  | none =>
    if jsStartsWith symbolOrAddress "0x" || symbolOrAddress.length ≥ 32 then
      symbolOrAddress
    else
      symbolOrAddress

/-- Combined lookup `KNOWN_TOKENS[chainId]?.[upper]`, used to state theorems
about `resolveToken`. -/
def knownTokenLookup (chainId upper : String) : Option String :=
  match KNOWN_TOKENS.lookup chainId with
  | some chainTokens => chainTokens.lookup upper
  | none => none

-- ---------------------------------------------------------------------------
-- Builder (intent-builder.ts, buildIntentXml)
-- ---------------------------------------------------------------------------

/-- `params.quote || 'USDC'` — JavaScript `||` treats the empty string and
`undefined` alike as falsy. -/
def defaultQuote (q : Option String) : String :=
  match q with
  | some s => if s = "" then "USDC" else s
  | none => "USDC"

/-- Message of the invalid-action error. -/
def invalidActionMsg (action : String) : String :=
  "Invalid action \"" ++ action ++ "\". Must be \"buy\" or \"sell\"."

/-- Message of the missing-base error. -/
def baseRequiredMsg : String :=
  "--base is required (token to buy or sell)."

/-- Message of the missing-amount error. -/
def amountRequiredMsg : String :=
  "--amount is required (number or \"all\" for sell)."

/-- Message of the `"all"`-on-buy error. -/
def sellOnlyAllMsg : String :=
  "\"all\" amount is only supported for sell orders."

/-- Message of the non-numeric-amount error. -/
def invalidAmountMsg (amount : String) : String :=
  "Invalid amount \"" ++ amount ++ "\". Must be a number or \"all\"."

/-- Message of the AIUSD stablecoin-constraint error, with the caller's
literal `base`, `amount` and `chain` interpolated. -/
def aiusdConstraintMsg (base amount chain : String) : String :=
  "AIUSD can only convert to stablecoins (USDC, USDT, USD1). " ++
  "To buy " ++ base ++ " with AIUSD, do two steps:\n" ++
  "  1. trade --action buy --base USDC --quote AIUSD --amount " ++ amount ++
    " --chain " ++ chain ++ "\n" ++
  "  2. trade --action buy --base " ++ base ++ " --quote USDC --amount " ++ amount ++
    " --chain " ++ chain

/-- The `exit` element (source lines 222–232): present only when a take-profit
or stop-loss was supplied, with `profit_percent` / `loss_percent` children for
whichever of the two is present. -/
def exitXmlOf (takeProfit stopLoss : Option String) : String :=
  if takeProfit ≠ none ∨ stopLoss ≠ none then
    let conditionsXml :=
      (match takeProfit with
       | some tp => "<profit_percent>" ++ tp ++ "</profit_percent>"
       | none => "") ++
      (match stopLoss with
       | some sl => "<loss_percent>" ++ sl ++ "</loss_percent>"
       | none => "")
    "<exit><conditions>" ++ conditionsXml ++ "</conditions><logic>OR</logic></exit>"
  else ""

/-- The conditional `summary += " (TP: +…%)"` of the source, as the appended
suffix. -/
def tpSuffix : Option String → String
  | some tp => " (TP: +" ++ tp ++ "%)"
  | none => ""

/-- The conditional `summary += " (SL: -…%)"` of the source, as the appended
suffix. -/
def slSuffix : Option String → String
  | some sl => " (SL: -" ++ sl ++ "%)"
  | none => ""

/-- The `---- Build XML ---- / ---- Build human summary ----` sections of
`buildIntentXml`: token resolution and output assembly once every validation
has passed, given the already-resolved chain id. -/
def buildSuccess (params : TradeParams) (chainId : String) : BuildResult :=
  let amount := params.amount
  let quote := defaultQuote params.quote
  let baseResolved := resolveToken params.base chainId
  let quoteResolved := resolveToken quote chainId
  let actionXml :=
    if params.action = "buy" then
      "<buy>" ++
      ("<amount>" ++ amount ++ "</amount>") ++
      ("<quote>" ++ quoteResolved ++ "</quote>") ++
      ("<base>" ++ baseResolved ++ "</base>") ++
      "</buy>"
    else
      if amount = "all" then
        "<sell>" ++
        "<amount>all</amount>" ++
        ("<quote>" ++ quoteResolved ++ "</quote>") ++
        ("<base>" ++ baseResolved ++ "</base>") ++
        "</sell>"
      else
        "<sell>" ++
        ("<amount>" ++ amount ++ "</amount>") ++
        ("<quote>" ++ quoteResolved ++ "</quote>") ++
        ("<base>" ++ baseResolved ++ "</base>") ++
        "</sell>"
  let exitXml := exitXmlOf params.takeProfit params.stopLoss
  let xml :=
    "<intent>" ++
    "<type>IMMEDIATE</type>" ++
    ("<chain_id>" ++ chainId ++ "</chain_id>") ++
    "<entry>" ++
    "<condition><immediate>true</immediate></condition>" ++
    ("<action>" ++ actionXml ++ "</action>") ++
    "</entry>" ++
    exitXml ++
    "</intent>"
  let amountStr := if amount = "all" then "all" else amount
  let summaryBase :=
    if params.action = "buy" then
      "Buy " ++ params.base ++ " with " ++ amountStr ++ " " ++ quote ++
        " on " ++ params.chain
    else
      "Sell " ++ amountStr ++ " " ++ params.base ++ " for " ++ quote ++
        " on " ++ params.chain
  let summary :=
    summaryBase ++ tpSuffix params.takeProfit ++ slSuffix params.stopLoss
  { xml := xml, summary := summary }

/-- The `---- Validate ----` section of `buildIntentXml` and everything after
it, given the already-resolved chain id.  Each sequential `throw` of the
source becomes one more `else if`. -/
def buildValidated (params : TradeParams) (chainId : String) : Except String BuildResult :=
  if params.action ≠ "buy" ∧ params.action ≠ "sell" then
    .error (invalidActionMsg params.action)
  else if params.base = "" then
    .error baseRequiredMsg
  else if params.amount = "" then
    .error amountRequiredMsg
  else if params.amount = "all" ∧ params.action = "buy" then
    .error sellOnlyAllMsg
  else if params.amount ≠ "all" ∧ jsNumberIsNaN params.amount = true then
    .error (invalidAmountMsg params.amount)
  else if jsToUpper (defaultQuote params.quote) = "AIUSD" ∧
      jsToUpper params.base ∉ STABLECOINS then
    .error (aiusdConstraintMsg params.base params.amount params.chain)
  else
    .ok (buildSuccess params chainId)

/-- `buildIntentXml`: the source resolves the chain (line 152) before the
`---- Validate ----` section, so a chain-resolution failure is raised first. -/
def buildIntentXml (params : TradeParams) : Except String BuildResult :=
  match resolveChainId params.chain with
  | .error e => .error e
  | .ok chainId => buildValidated params chainId

-- ---------------------------------------------------------------------------
-- Helper lemmas
-- ---------------------------------------------------------------------------

theorem string_append_assoc (a b c : String) : a ++ b ++ c = a ++ (b ++ c) := by
  cases a
  cases b
  cases c
  show String.mk _ = String.mk _
  rw [List.append_assoc]

theorem buildIntentXml_resolve_err (params : TradeParams) (e : String)
    (h : resolveChainId params.chain = .error e) :
    buildIntentXml params = .error e := by
  unfold buildIntentXml
  rw [h]

theorem buildIntentXml_resolve_ok (params : TradeParams) (cid : String)
    (h : resolveChainId params.chain = .ok cid) :
    buildIntentXml params = buildValidated params cid := by
  unfold buildIntentXml
  rw [h]

theorem buildValidated_ok (params : TradeParams) (cid : String)
    (h1 : ¬(params.action ≠ "buy" ∧ params.action ≠ "sell"))
    (h2 : params.base ≠ "")
    (h3 : params.amount ≠ "")
    (h4 : ¬(params.amount = "all" ∧ params.action = "buy"))
    (h5 : ¬(params.amount ≠ "all" ∧ jsNumberIsNaN params.amount = true))
    (h6 : ¬(jsToUpper (defaultQuote params.quote) = "AIUSD" ∧
            jsToUpper params.base ∉ STABLECOINS)) :
    buildValidated params cid = .ok (buildSuccess params cid) := by
  unfold buildValidated
  rw [if_neg h1, if_neg h2, if_neg h3, if_neg h4, if_neg h5, if_neg h6]

theorem buildIntentXml_ok (params : TradeParams) (cid : String)
    (hcid : resolveChainId params.chain = .ok cid)
    (h1 : ¬(params.action ≠ "buy" ∧ params.action ≠ "sell"))
    (h2 : params.base ≠ "")
    (h3 : params.amount ≠ "")
    (h4 : ¬(params.amount = "all" ∧ params.action = "buy"))
    (h5 : ¬(params.amount ≠ "all" ∧ jsNumberIsNaN params.amount = true))
    (h6 : ¬(jsToUpper (defaultQuote params.quote) = "AIUSD" ∧
            jsToUpper params.base ∉ STABLECOINS)) :
    buildIntentXml params = .ok (buildSuccess params cid) := by
  rw [buildIntentXml_resolve_ok params cid hcid]
  exact buildValidated_ok params cid h1 h2 h3 h4 h5 h6

-- ---------------------------------------------------------------------------
-- Claim theorems
-- ---------------------------------------------------------------------------

/-- C3: the input `{action:"buy", base:"SOL", amount:"100", chain:"solana"}`
with `quote` omitted succeeds, with `quote` defaulted to `USDC`: the xml has
chain id `solana:mainnet-beta`, its buy block is exactly
`<amount>100</amount><quote>EPjF…</quote><base>So11…</base>`, and the summary
is `Buy SOL with 100 USDC on solana`. -/
theorem c3_concrete_buy_sol_defaults :
    buildIntentXml { action := "buy", base := "SOL", amount := "100", chain := "solana" } =
      Except.ok
        { xml := "<intent><type>IMMEDIATE</type><chain_id>solana:mainnet-beta</chain_id><entry><condition><immediate>true</immediate></condition><action><buy><amount>100</amount><quote>EPjFWdd5AufqSSqeM2qN1xzybapC8G4wEGGkZwyTDt1v</quote><base>So11111111111111111111111111111111111111112</base></buy></action></entry></intent>",
          summary := "Buy SOL with 100 USDC on solana" } := by
  rfl

/-- C8: the builder is a deterministic pure function of its input — two calls
on identical `TradeParams` yield byte-identical `xml` and `summary`. -/
theorem c8_deterministic (p : TradeParams) (r₁ r₂ : BuildResult)
    (h₁ : buildIntentXml p = .ok r₁) (h₂ : buildIntentXml p = .ok r₂) :
    r₁.xml = r₂.xml ∧ r₁.summary = r₂.summary := by
  rw [h₁] at h₂
  injection h₂ with h
  rw [h]
  exact ⟨rfl, rfl⟩

/-- Witness for C8 at the concrete `buy SOL` input. -/
theorem c8_deterministic_witness :
    ({ xml := "<intent><type>IMMEDIATE</type><chain_id>solana:mainnet-beta</chain_id><entry><condition><immediate>true</immediate></condition><action><buy><amount>100</amount><quote>EPjFWdd5AufqSSqeM2qN1xzybapC8G4wEGGkZwyTDt1v</quote><base>So11111111111111111111111111111111111111112</base></buy></action></entry></intent>",
       summary := "Buy SOL with 100 USDC on solana" } : BuildResult).xml =
    ({ xml := "<intent><type>IMMEDIATE</type><chain_id>solana:mainnet-beta</chain_id><entry><condition><immediate>true</immediate></condition><action><buy><amount>100</amount><quote>EPjFWdd5AufqSSqeM2qN1xzybapC8G4wEGGkZwyTDt1v</quote><base>So11111111111111111111111111111111111111112</base></buy></action></entry></intent>",
       summary := "Buy SOL with 100 USDC on solana" } : BuildResult).xml ∧
    ({ xml := "<intent><type>IMMEDIATE</type><chain_id>solana:mainnet-beta</chain_id><entry><condition><immediate>true</immediate></condition><action><buy><amount>100</amount><quote>EPjFWdd5AufqSSqeM2qN1xzybapC8G4wEGGkZwyTDt1v</quote><base>So11111111111111111111111111111111111111112</base></buy></action></entry></intent>",
       summary := "Buy SOL with 100 USDC on solana" } : BuildResult).summary =
    ({ xml := "<intent><type>IMMEDIATE</type><chain_id>solana:mainnet-beta</chain_id><entry><condition><immediate>true</immediate></condition><action><buy><amount>100</amount><quote>EPjFWdd5AufqSSqeM2qN1xzybapC8G4wEGGkZwyTDt1v</quote><base>So11111111111111111111111111111111111111112</base></buy></action></entry></intent>",
       summary := "Buy SOL with 100 USDC on solana" } : BuildResult).summary := by
  exact c8_deterministic
    { action := "buy", base := "SOL", amount := "100", chain := "solana" }
    _ _ rfl rfl

/-- C10: an explicitly supplied empty-string `quote` behaves exactly like an
absent `quote`: the builder's output (validation, token resolution, xml and
summary) is identical to the output with `quote` omitted. -/
theorem c10_empty_quote_like_absent (params : TradeParams)
    (h : params.quote = some "") :
    buildIntentXml params = buildIntentXml { params with quote := none } := by
  cases params with
  | mk a b q amt ch tp sl =>
    simp only at h
    subst h
    simp [buildIntentXml, buildValidated, buildSuccess, defaultQuote]

/-- Witness for C10 at a concrete input with `quote := some ""`. -/
theorem c10_empty_quote_like_absent_witness :
    buildIntentXml
        { action := "buy", base := "SOL", quote := some "", amount := "100", chain := "solana" } =
      buildIntentXml
        { action := "buy", base := "SOL", quote := none, amount := "100", chain := "solana" } := by
  exact c10_empty_quote_like_absent
    { action := "buy", base := "SOL", quote := some "", amount := "100", chain := "solana" } rfl

/-- C4 counterexample: for the colon-containing input `"EIP155:1"`, which is
absent from the chain table, `resolveChainId` returns the lower-cased
normalized form `"eip155:1"`, not the input string exactly as supplied. -/
theorem c4_counterexample :
    resolveChainId "EIP155:1" = Except.ok "eip155:1" ∧
    ("eip155:1" : String) ≠ "EIP155:1" := by
  exact ⟨rfl, by decide⟩

/-- C4 (amended): for every input whose normalized (trimmed, lower-cased) form
is absent from the chain table but contains a colon, `resolveChainId` returns
the *normalized* input; for every normalized input absent from the table with
no colon it fails with the `Unknown chain` error listing every valid chain
name of the table; and that is its only error (it never fails otherwise). -/
theorem c4_chain_resolution (chain : String) :
    (CHAIN_MAP.lookup (jsTrim (jsToLower chain)) = none →
      jsIncludesChar (jsTrim (jsToLower chain)) ':' = true →
      resolveChainId chain = .ok (jsTrim (jsToLower chain))) ∧
    (CHAIN_MAP.lookup (jsTrim (jsToLower chain)) = none →
      jsIncludesChar (jsTrim (jsToLower chain)) ':' = false →
      resolveChainId chain = .error (unknownChainMsg chain)) ∧
    (∀ e, resolveChainId chain = .error e → e = unknownChainMsg chain) := by
  refine ⟨fun hl hc => ?_, fun hl hc => ?_, fun e he => ?_⟩
  · simp only [resolveChainId, hl, hc, if_true]
  · simp only [resolveChainId, hl, hc, Bool.false_eq_true, if_false]
  · simp only [resolveChainId] at he
    split at he
    · exact Except.noConfusion he
    · split at he
      · exact Except.noConfusion he
      · injection he with h
        exact h.symm

/-- Witness for C4 at the colon-containing input `"EIP155:1"` and the unknown
input `"nosuchchain"`. -/
theorem c4_chain_resolution_witness :
    resolveChainId "EIP155:1" = .ok (jsTrim (jsToLower "EIP155:1")) ∧
    resolveChainId "nosuchchain" = .error (unknownChainMsg "nosuchchain") := by
  exact ⟨(c4_chain_resolution "EIP155:1").1 rfl rfl,
         (c4_chain_resolution "nosuchchain").2.1 rfl rfl⟩

/-- C6: whenever the per-chain token table of `chainId` has an entry for the
trimmed, uppercased input, `resolveToken` returns the canonical address from
the table; consequently any two case variants with the same uppercase form
resolve to that same address. -/
theorem c6_token_table_precedence :
    (∀ chainId sym addr,
      knownTokenLookup chainId (jsTrim (jsToUpper sym)) = some addr →
      resolveToken sym chainId = addr) ∧
    (∀ chainId s₁ s₂ addr,
      jsTrim (jsToUpper s₁) = jsTrim (jsToUpper s₂) →
      knownTokenLookup chainId (jsTrim (jsToUpper s₁)) = some addr →
      resolveToken s₁ chainId = resolveToken s₂ chainId) := by
  have main : ∀ chainId sym addr,
      knownTokenLookup chainId (jsTrim (jsToUpper sym)) = some addr →
      resolveToken sym chainId = addr := by
    intro chainId sym addr h
    cases hk : KNOWN_TOKENS.lookup chainId with
    | none =>
      simp only [knownTokenLookup, hk] at h
      exact Option.noConfusion h
    | some table =>
      simp only [knownTokenLookup, hk] at h
      simp only [resolveToken, hk, h]
  refine ⟨main, fun chainId s₁ s₂ addr heq h₁ => ?_⟩
  rw [main chainId s₁ addr h₁, main chainId s₂ addr (heq ▸ h₁)]

/-- Witness for C6: `usdc`, `USDC` and `Usdc` all resolve to the canonical
USDC mint address on Solana. -/
theorem c6_token_table_precedence_witness :
    resolveToken "usdc" "solana:mainnet-beta" =
      "EPjFWdd5AufqSSqeM2qN1xzybapC8G4wEGGkZwyTDt1v" ∧
    resolveToken "USDC" "solana:mainnet-beta" =
      "EPjFWdd5AufqSSqeM2qN1xzybapC8G4wEGGkZwyTDt1v" ∧
    resolveToken "Usdc" "solana:mainnet-beta" =
      "EPjFWdd5AufqSSqeM2qN1xzybapC8G4wEGGkZwyTDt1v" := by
  exact ⟨c6_token_table_precedence.1 "solana:mainnet-beta" "usdc" _ rfl,
         c6_token_table_precedence.1 "solana:mainnet-beta" "USDC" _ rfl,
         c6_token_table_precedence.1 "solana:mainnet-beta" "Usdc" _ rfl⟩

/-- C7: when the trimmed, uppercased input has no entry in the token table for
the given chain identifier (in particular for raw addresses and unknown
symbols), `resolveToken` returns the input string unchanged — case preserved,
not uppercased.  `resolveToken` is a total `String`-valued function, so it
never fails on any input. -/
theorem c7_unknown_symbol_passthrough (sym chainId : String)
    (h : knownTokenLookup chainId (jsTrim (jsToUpper sym)) = none) :
    resolveToken sym chainId = sym := by
  cases hk : KNOWN_TOKENS.lookup chainId with
  | none =>
    simp only [resolveToken, hk]
    split <;> rfl
  | some table =>
    simp only [knownTokenLookup, hk] at h
    simp only [resolveToken, hk, h]
    split <;> rfl

/-- Witness for C7: an unknown mixed-case symbol and a raw `0x` address both
pass through unchanged on chains with a token table. -/
theorem c7_unknown_symbol_passthrough_witness :
    resolveToken "Doge" "solana:mainnet-beta" = "Doge" ∧
    resolveToken "0xDeadBeef00000000000000000000000000000000" "eip155:1" =
      "0xDeadBeef00000000000000000000000000000000" := by
  exact ⟨c7_unknown_symbol_passthrough "Doge" "solana:mainnet-beta" rfl,
         c7_unknown_symbol_passthrough
           "0xDeadBeef00000000000000000000000000000000" "eip155:1" rfl⟩

/-- C1 counterexample: for the input with invalid action `"hold"` and unknown
chain `"garbage"`, `buildIntentXml` fails with the `Unknown chain` error, not
the invalid-action `ValidationError` — the chain is resolved before any
validation runs, contrary to the claim. -/
theorem c1_counterexample :
    buildIntentXml { action := "hold", base := "SOL", amount := "100", chain := "garbage" } =
      Except.error (unknownChainMsg "garbage") ∧
    unknownChainMsg "garbage" ≠ invalidActionMsg "hold" := by
  exact ⟨rfl, by decide⟩

/-- C1 (amended): `buildIntentXml` resolves the chain *first*: a
chain-resolution failure is reported even when later validation would also
fail; for every input whose chain resolves, the six validation rules are
checked in the listed order — invalid action, empty base, empty amount,
`"all"` with buy, non-numeric amount, AIUSD to non-stablecoin — each rule
firing only when all earlier rules pass. -/
theorem c1_validation_order (params : TradeParams) :
    (∀ e, resolveChainId params.chain = .error e → buildIntentXml params = .error e) ∧
    ∀ cid, resolveChainId params.chain = .ok cid →
      ((params.action ≠ "buy" ∧ params.action ≠ "sell") →
        buildIntentXml params = .error (invalidActionMsg params.action)) ∧
      (¬(params.action ≠ "buy" ∧ params.action ≠ "sell") →
        params.base = "" →
        buildIntentXml params = .error baseRequiredMsg) ∧
      (¬(params.action ≠ "buy" ∧ params.action ≠ "sell") →
        params.base ≠ "" → params.amount = "" →
        buildIntentXml params = .error amountRequiredMsg) ∧
      (¬(params.action ≠ "buy" ∧ params.action ≠ "sell") →
        params.base ≠ "" → params.amount ≠ "" →
        (params.amount = "all" ∧ params.action = "buy") →
        buildIntentXml params = .error sellOnlyAllMsg) ∧
      (¬(params.action ≠ "buy" ∧ params.action ≠ "sell") →
        params.base ≠ "" → params.amount ≠ "" →
        ¬(params.amount = "all" ∧ params.action = "buy") →
        (params.amount ≠ "all" ∧ jsNumberIsNaN params.amount = true) →
        buildIntentXml params = .error (invalidAmountMsg params.amount)) ∧
      (¬(params.action ≠ "buy" ∧ params.action ≠ "sell") →
        params.base ≠ "" → params.amount ≠ "" →
        ¬(params.amount = "all" ∧ params.action = "buy") →
        ¬(params.amount ≠ "all" ∧ jsNumberIsNaN params.amount = true) →
        (jsToUpper (defaultQuote params.quote) = "AIUSD" ∧
          jsToUpper params.base ∉ STABLECOINS) →
        buildIntentXml params = .error
          (aiusdConstraintMsg params.base params.amount params.chain)) := by
  refine ⟨fun e he => buildIntentXml_resolve_err params e he, fun cid hcid => ?_⟩
  have hb := buildIntentXml_resolve_ok params cid hcid
  refine ⟨fun h1 => ?_, fun h1 h2 => ?_, fun h1 h2 h3 => ?_,
          fun h1 h2 h3 h4 => ?_, fun h1 h2 h3 h4 h5 => ?_,
          fun h1 h2 h3 h4 h5 h6 => ?_⟩
  · rw [hb]
    unfold buildValidated
    rw [if_pos h1]
  · rw [hb]
    unfold buildValidated
    rw [if_neg h1, if_pos h2]
  · rw [hb]
    unfold buildValidated
    rw [if_neg h1, if_neg h2, if_pos h3]
  · rw [hb]
    unfold buildValidated
    rw [if_neg h1, if_neg h2, if_neg h3, if_pos h4]
  · rw [hb]
    unfold buildValidated
    rw [if_neg h1, if_neg h2, if_neg h3, if_neg h4, if_pos h5]
  · rw [hb]
    unfold buildValidated
    rw [if_neg h1, if_neg h2, if_neg h3, if_neg h4, if_neg h5, if_pos h6]

/-- Witness for C1: with a resolvable chain, the invalid action `"hold"` is
reported by the first validation rule. -/
theorem c1_validation_order_witness :
    buildIntentXml { action := "hold", base := "SOL", amount := "100", chain := "solana" } =
      Except.error (invalidActionMsg "hold") := by
  exact (((c1_validation_order
    { action := "hold", base := "SOL", amount := "100", chain := "solana" }).2
      "solana:mainnet-beta" rfl).1 (by decide))

/-- C2 counterexample: the input `{action:"buy", base:"", quote:"AIUSD",
amount:"100", chain:"solana"}` has quote `AIUSD` and a base outside the
stablecoin set, yet `buildIntentXml` fails with the missing-base message, not
the AIUSD-constraint message — the claim's universal statement fails for
inputs that violate an earlier validation rule. -/
theorem c2_counterexample :
    buildIntentXml
        { action := "buy", base := "", quote := some "AIUSD", amount := "100", chain := "solana" } =
      Except.error baseRequiredMsg ∧
    baseRequiredMsg ≠ aiusdConstraintMsg "" "100" "solana" := by
  exact ⟨rfl, by decide⟩

/-- C2 (amended): for every `TradeParams` whose chain resolves and which
passes the five earlier validation rules, if the defaulted quote uppercases to
`AIUSD` and the uppercased base is outside the stablecoin set, then
`buildIntentXml` fails with exactly the AIUSD-constraint message — which spells
out that AIUSD can only convert to stablecoins and both remediation steps
(first AIUSD→USDC, then USDC→target) with the caller's literal amount and
chain interpolated; and for base `"USDC"` with quote `"AIUSD"` (other fields
valid) the build succeeds. -/
theorem c2_aiusd_constraint :
    (∀ params : TradeParams, ∀ cid,
      resolveChainId params.chain = .ok cid →
      ¬(params.action ≠ "buy" ∧ params.action ≠ "sell") →
      params.base ≠ "" → params.amount ≠ "" →
      ¬(params.amount = "all" ∧ params.action = "buy") →
      ¬(params.amount ≠ "all" ∧ jsNumberIsNaN params.amount = true) →
      jsToUpper (defaultQuote params.quote) = "AIUSD" →
      jsToUpper params.base ∉ STABLECOINS →
      buildIntentXml params = .error
        (aiusdConstraintMsg params.base params.amount params.chain)) ∧
    (∃ r, buildIntentXml
        { action := "buy", base := "USDC", quote := some "AIUSD",
          amount := "100", chain := "solana" } = .ok r) := by
  constructor
  · intro params cid hcid h1 h2 h3 h4 h5 hq hbase
    rw [buildIntentXml_resolve_ok params cid hcid]
    unfold buildValidated
    rw [if_neg h1, if_neg h2, if_neg h3, if_neg h4, if_neg h5, if_pos ⟨hq, hbase⟩]
  · exact ⟨_, rfl⟩

/-- Witness for C2: `{action:"buy", base:"SOL", quote:"AIUSD", amount:"10",
chain:"solana"}` fails with the AIUSD message carrying amount `10` and chain
`solana` in both suggested commands. -/
theorem c2_aiusd_constraint_witness :
    buildIntentXml
        { action := "buy", base := "SOL", quote := some "AIUSD",
          amount := "10", chain := "solana" } =
      Except.error (aiusdConstraintMsg "SOL" "10" "solana") := by
  exact c2_aiusd_constraint.1
    { action := "buy", base := "SOL", quote := some "AIUSD",
      amount := "10", chain := "solana" }
    "solana:mainnet-beta" rfl (by decide) (by decide) (by decide)
    (by decide) (by decide) rfl (by decide)

/-- C5: `buildIntentXml` always fails for action `buy` with amount `"all"`;
and for action `sell` with amount `"all"` (non-empty base, resolvable chain,
AIUSD constraint satisfied) it succeeds, with the sell block's amount element
holding the literal string `all`. -/
theorem c5_sell_all :
    (∀ params : TradeParams, params.action = "buy" → params.amount = "all" →
      ∃ e, buildIntentXml params = .error e) ∧
    (∀ params : TradeParams, ∀ cid,
      params.action = "sell" → params.amount = "all" → params.base ≠ "" →
      resolveChainId params.chain = .ok cid →
      ¬(jsToUpper (defaultQuote params.quote) = "AIUSD" ∧
        jsToUpper params.base ∉ STABLECOINS) →
      ∃ r p q, buildIntentXml params = .ok r ∧
        r.xml = p ++ "<sell><amount>all</amount>" ++ q) := by
  constructor
  · intro params hbuy hall
    cases hres : resolveChainId params.chain with
    | error e => exact ⟨e, buildIntentXml_resolve_err params e hres⟩
    | ok cid =>
      rw [buildIntentXml_resolve_ok params cid hres]
      unfold buildValidated
      have h1 : ¬(params.action ≠ "buy" ∧ params.action ≠ "sell") :=
        fun h => h.1 hbuy
      rw [if_neg h1]
      by_cases h2 : params.base = ""
      · exact ⟨baseRequiredMsg, by rw [if_pos h2]⟩
      · rw [if_neg h2]
        have h3 : ¬(params.amount = "") := by
          rw [hall]
          decide
        rw [if_neg h3, if_pos ⟨hall, hbuy⟩]
        exact ⟨sellOnlyAllMsg, rfl⟩
  · intro params cid hsell hall hbase hcid haiusd
    have h1 : ¬(params.action ≠ "buy" ∧ params.action ≠ "sell") :=
      fun h => h.2 hsell
    have h3 : params.amount ≠ "" := by
      rw [hall]
      decide
    have h4 : ¬(params.amount = "all" ∧ params.action = "buy") := by
      intro h
      rw [hsell] at h
      exact absurd h.2 (by decide)
    have h5 : ¬(params.amount ≠ "all" ∧ jsNumberIsNaN params.amount = true) :=
      fun h => h.1 hall
    refine ⟨buildSuccess params cid,
      "<intent>" ++ "<type>IMMEDIATE</type>" ++ ("<chain_id>" ++ cid ++ "</chain_id>") ++
        "<entry>" ++ "<condition><immediate>true</immediate></condition>" ++ "<action>",
      ("<quote>" ++ resolveToken (defaultQuote params.quote) cid ++ "</quote>") ++
        ("<base>" ++ resolveToken params.base cid ++ "</base>") ++ "</sell>" ++
        "</action>" ++ "</entry>" ++ exitXmlOf params.takeProfit params.stopLoss ++
        "</intent>",
      buildIntentXml_ok params cid hcid h1 hbase h3 h4 h5 haiusd, ?_⟩
    have hsplit : ("<sell><amount>all</amount>" : String) =
        "<sell>" ++ "<amount>all</amount>" := rfl
    have hnb : ¬(params.action = "buy") := by
      rw [hsell]
      decide
    rw [hsplit]
    simp only [buildSuccess]
    rw [if_neg hnb, if_pos hall]
    simp only [string_append_assoc]

/-- C9: the numeric-amount rule accepts every amount other than `"all"` whose
JavaScript `Number()` coercion is non-NaN (whitespace-only strings, hex
literals, negatives, `Infinity`, …): for such an amount — with the other
validation rules satisfied and the chain resolvable — the build succeeds and
the original amount string appears verbatim inside the xml `amount` element
and inside the summary. -/
theorem c9_numeric_amounts (params : TradeParams) (cid : String)
    (hcid : resolveChainId params.chain = .ok cid)
    (hact : params.action = "buy" ∨ params.action = "sell")
    (hbase : params.base ≠ "")
    (hne : params.amount ≠ "")
    (hnotall : params.amount ≠ "all")
    (hnum : jsNumberIsNaN params.amount = false)
    (haiusd : ¬(jsToUpper (defaultQuote params.quote) = "AIUSD" ∧
                jsToUpper params.base ∉ STABLECOINS)) :
    ∃ r, buildIntentXml params = .ok r ∧
      (∃ p q, r.xml = p ++ ("<amount>" ++ params.amount ++ "</amount>") ++ q) ∧
      (∃ p q, r.summary = p ++ params.amount ++ q) := by
  have h1 : ¬(params.action ≠ "buy" ∧ params.action ≠ "sell") := by
    intro h
    cases hact with
    | inl hb => exact h.1 hb
    | inr hs => exact h.2 hs
  have h4 : ¬(params.amount = "all" ∧ params.action = "buy") :=
    fun h => hnotall h.1
  have h5 : ¬(params.amount ≠ "all" ∧ jsNumberIsNaN params.amount = true) := by
    intro h
    rw [hnum] at h
    exact Bool.noConfusion h.2
  refine ⟨buildSuccess params cid,
    buildIntentXml_ok params cid hcid h1 hbase hne h4 h5 haiusd, ?_, ?_⟩
  · cases hact with
    | inl hb =>
      refine ⟨"<intent>" ++ "<type>IMMEDIATE</type>" ++
          ("<chain_id>" ++ cid ++ "</chain_id>") ++ "<entry>" ++
          "<condition><immediate>true</immediate></condition>" ++ "<action>" ++ "<buy>",
        ("<quote>" ++ resolveToken (defaultQuote params.quote) cid ++ "</quote>") ++
          ("<base>" ++ resolveToken params.base cid ++ "</base>") ++ "</buy>" ++
          "</action>" ++ "</entry>" ++ exitXmlOf params.takeProfit params.stopLoss ++
          "</intent>", ?_⟩
      simp only [buildSuccess]
      rw [if_pos hb]
      simp only [string_append_assoc]
    | inr hs =>
      refine ⟨"<intent>" ++ "<type>IMMEDIATE</type>" ++
          ("<chain_id>" ++ cid ++ "</chain_id>") ++ "<entry>" ++
          "<condition><immediate>true</immediate></condition>" ++ "<action>" ++ "<sell>",
        ("<quote>" ++ resolveToken (defaultQuote params.quote) cid ++ "</quote>") ++
          ("<base>" ++ resolveToken params.base cid ++ "</base>") ++ "</sell>" ++
          "</action>" ++ "</entry>" ++ exitXmlOf params.takeProfit params.stopLoss ++
          "</intent>", ?_⟩
      have hnb : ¬(params.action = "buy") := by
        rw [hs]
        decide
      simp only [buildSuccess]
      rw [if_neg hnb, if_neg hnotall]
      simp only [string_append_assoc]
  · cases hact with
    | inl hb =>
      refine ⟨"Buy " ++ params.base ++ " with ",
        " " ++ defaultQuote params.quote ++ " on " ++ params.chain ++
          tpSuffix params.takeProfit ++ slSuffix params.stopLoss, ?_⟩
      simp only [buildSuccess]
      rw [if_pos hb, if_neg hnotall]
      simp only [string_append_assoc]
    | inr hs =>
      refine ⟨"Sell ",
        " " ++ params.base ++ " for " ++ defaultQuote params.quote ++ " on " ++
          params.chain ++ tpSuffix params.takeProfit ++ slSuffix params.stopLoss, ?_⟩
      have hnb : ¬(params.action = "buy") := by
        rw [hs]
        decide
      simp only [buildSuccess]
      rw [if_neg hnb, if_neg hnotall]
      simp only [string_append_assoc]

/-- Witness for C5: buy-with-`"all"` fails on a concrete input; sell-`"all"`
of SOL on solana succeeds with the literal `all` amount element. -/
theorem c5_sell_all_witness :
    (∃ e, buildIntentXml
        { action := "buy", base := "SOL", amount := "all", chain := "solana" } =
      .error e) ∧
    (∃ r p q, buildIntentXml
        { action := "sell", base := "SOL", amount := "all", chain := "solana" } = .ok r ∧
      r.xml = p ++ "<sell><amount>all</amount>" ++ q) := by
  exact ⟨c5_sell_all.1
          { action := "buy", base := "SOL", amount := "all", chain := "solana" } rfl rfl,
        c5_sell_all.2
          { action := "sell", base := "SOL", amount := "all", chain := "solana" }
          "solana:mainnet-beta" rfl rfl (by decide) rfl (by decide)⟩

/-- Witness for C9 at the hex amount `"0x10"` and the whitespace-only amount
`" "`, both accepted by the numeric rule and embedded verbatim. -/
theorem c9_numeric_amounts_witness :
    (∃ r, buildIntentXml
        { action := "buy", base := "SOL", amount := "0x10", chain := "solana" } = .ok r ∧
      (∃ p q, r.xml = p ++ ("<amount>" ++ "0x10" ++ "</amount>") ++ q) ∧
      (∃ p q, r.summary = p ++ "0x10" ++ q)) ∧
    (∃ r, buildIntentXml
        { action := "buy", base := "SOL", amount := " ", chain := "solana" } = .ok r ∧
      (∃ p q, r.xml = p ++ ("<amount>" ++ " " ++ "</amount>") ++ q) ∧
      (∃ p q, r.summary = p ++ " " ++ q)) := by
  constructor
  · exact c9_numeric_amounts
      { action := "buy", base := "SOL", amount := "0x10", chain := "solana" }
      "solana:mainnet-beta" rfl (Or.inl rfl) (by decide) (by decide) (by decide)
      rfl (by decide)
  · exact c9_numeric_amounts
      { action := "buy", base := "SOL", amount := " ", chain := "solana" }
      "solana:mainnet-beta" rfl (Or.inl rfl) (by decide) (by decide) (by decide)
      rfl (by decide)

end AiusdSkills
